import Mathlib

/-!
# The public interface of the node editor (`imgui_node_editor.h`)

A shallow embedding of the value-level part of the header: the save-reason
bitmask with its two operators, the default `Config`, the style enumerations
with the default `Style`, and the opaque handles `NodeId`, `LinkId`, `PinId`
built from `Details::SafeType` and `Details::SafePointerType`.

Machine integers are natural numbers carrying their range: a `uint32_t` is a
number below `2 ^ 32`, a `uintptr_t` a number below `2 ^ W`, where `W` is the
width of `uintptr_t` on the target (the header takes the type from `<cstdint>`
and does not fix its width).
-/

namespace ax.NodeEditor

/-! ## `SaveReasonFlags` (header lines 32-48) -/

/-- A value of `enum class SaveReasonFlags : uint32_t`.  The underlying type is
fixed, so every 32-bit unsigned number is a value of the enumeration, named or
not. -/
structure SaveReasonFlags where
  bits : Nat
  lt : bits < 2 ^ 32
deriving DecidableEq

namespace SaveReasonFlags

/-- Enumerator `None = 0x00000000`. -/
def None : SaveReasonFlags := ⟨0x00000000, by decide⟩

/-- Enumerator `Navigation = 0x00000001`. -/
def Navigation : SaveReasonFlags := ⟨0x00000001, by decide⟩

/-- Enumerator `Position = 0x00000002`. -/
def Position : SaveReasonFlags := ⟨0x00000002, by decide⟩

/-- Enumerator `Size = 0x00000004`. -/
def Size : SaveReasonFlags := ⟨0x00000004, by decide⟩

/-- Enumerator `Selection = 0x00000008`. -/
def Selection : SaveReasonFlags := ⟨0x00000008, by decide⟩

/-- Enumerator `User = 0x00000010`. -/
def User : SaveReasonFlags := ⟨0x00000010, by decide⟩

/-- The five named reasons, in declaration order (`None` is the empty mask,
not a reason). -/
def namedReasons : List SaveReasonFlags :=
  [Navigation, Position, Size, Selection, User]

/-- The conversion `static_cast<uint32_t>(f)`. -/
def toUInt32 (f : SaveReasonFlags) : Nat := f.bits

/-- The conversion `static_cast<SaveReasonFlags>(v)` of an unsigned value. -/
def ofUInt32 (v : Nat) : SaveReasonFlags :=
  ⟨v % 2 ^ 32, Nat.mod_lt v (by decide)⟩

/-- The `operator|` of lines 41-44. -/
def operator_or (lhs rhs : SaveReasonFlags) : SaveReasonFlags :=
  ofUInt32 (toUInt32 lhs ||| toUInt32 rhs)

/-- The `operator&` of lines 45-48. -/
def operator_and (lhs rhs : SaveReasonFlags) : SaveReasonFlags :=
  ofUInt32 (toUInt32 lhs &&& toUInt32 rhs)

/-- The mask a host builds from a collection of reasons: the reasons joined
with `operator|`, starting from `None`. -/
def combine (reasons : List SaveReasonFlags) : SaveReasonFlags :=
  reasons.foldl operator_or None

end SaveReasonFlags

/-! ## Handles (header lines 345-424) -/

namespace Details

/-- The unsigned integer type `uintptr_t` of a target whose `uintptr_t` is `W`
bits wide. -/
structure uintptr_t (W : Nat) where
  val : Nat
  lt : val < 2 ^ W
deriving DecidableEq

/-- Integral conversion of an unsigned value to `uintptr_t`: reduction modulo
`2 ^ W`. -/
def uintptr_t.ofNat (W : Nat) (v : Nat) : uintptr_t W :=
  ⟨v % 2 ^ W, Nat.mod_lt v (Nat.two_pow_pos W)⟩

/-- The class template `SafeType<T, Tag>`: one private member `m_Value`; `Tag`
only tells the instantiations apart. -/
structure SafeType (T : Type) (Tag : Type) where
  m_Value : T

instance instDecidableEqSafeType {T Tag : Type} [DecidableEq T] :
    DecidableEq (SafeType T Tag) :=
  fun a b => decidable_of_iff (a.m_Value = b.m_Value)
    ⟨fun h => by cases a; cases b; cases h; rfl, fun h => by rw [h]⟩

namespace SafeType

variable {T Tag : Type}

/-- Constructor `SafeType(T t) : m_Value(std::move(t))`. -/
def ctor (t : T) : SafeType T Tag := ⟨t⟩

/-- The defaulted copy constructor `SafeType(const SafeType&)`. -/
def copy (other : SafeType T Tag) : SafeType T Tag := ⟨other.m_Value⟩

/-- The defaulted copy assignment `operator=(const SafeType&)`: the new value
of the assigned object. -/
def assign (_self other : SafeType T Tag) : SafeType T Tag := ⟨other.m_Value⟩

/-- Member `T Get() const`. -/
def Get (self : SafeType T Tag) : T := self.m_Value

end SafeType

/-- The class template `SafePointerType<Tag>`: a `SafeType<uintptr_t, Tag>`
with no further data member. -/
abbrev SafePointerType (W : Nat) (Tag : Type) := SafeType (uintptr_t W) Tag

namespace SafePointerType

variable {W : Nat} {Tag : Type}

/-- The static member `Invalid`, defined at line 398 as `{0}`: built by the
inherited constructor from the literal `0`. -/
def Invalid : SafePointerType W Tag := SafeType.ctor (uintptr_t.ofNat W 0)

/-- The `operator==` of lines 400-404. -/
def operator_eq (lhs rhs : SafePointerType W Tag) : Bool :=
  decide (lhs.Get.val = rhs.Get.val)

/-- The `operator!=` of lines 406-410. -/
def operator_ne (lhs rhs : SafePointerType W Tag) : Bool :=
  decide (lhs.Get.val ≠ rhs.Get.val)

/-- The default constructor `SafePointerType() : SafePointerType(Invalid)`. -/
def default : SafePointerType W Tag := SafeType.copy Invalid

/-- The constructor `explicit SafePointerType(T* ptr)`; a pointer is given by
its address, which `reinterpret_cast<uintptr_t>` keeps. -/
def ofPointer (ptr : uintptr_t W) : SafePointerType W Tag := SafeType.ctor ptr

/-- Member `AsPointer`: the address held, as a pointer. -/
def AsPointer (self : SafePointerType W Tag) : uintptr_t W := self.Get

/-- The conversion `explicit operator bool() const`. -/
def toBool (self : SafePointerType W Tag) : Bool := operator_ne self Invalid

/-- A handle built from a host integer `v`: the argument is converted to
`uintptr_t` and handed to the inherited constructor `SafeType(T t)`. -/
def ofValue (W : Nat) (Tag : Type) (v : Nat) : SafePointerType W Tag :=
  SafeType.ctor (uintptr_t.ofNat W v)

end SafePointerType

end Details

/-- The tag of `NodeId`. -/
inductive NodeIdTag : Type

/-- The tag of `LinkId`. -/
inductive LinkIdTag : Type

/-- The tag of `PinId`. -/
inductive PinIdTag : Type

/-- The handle type `struct NodeId final : Details::SafePointerType<NodeId>`. -/
abbrev NodeId (W : Nat) := Details.SafePointerType W NodeIdTag

/-- The handle type `struct LinkId final : Details::SafePointerType<LinkId>`. -/
abbrev LinkId (W : Nat) := Details.SafePointerType W LinkIdTag

/-- The handle type `struct PinId final : Details::SafePointerType<PinId>`. -/
abbrev PinId (W : Nat) := Details.SafePointerType W PinIdTag

/-! ## `Config` (header lines 50-79) -/

/-- An object pointer `void*`: `none` is `nullptr`, `some a` the address `a`. -/
abbrev VoidPtr := Option Nat

/-- The pointee of `ConfigSaveSettings`. -/
abbrev ConfigSaveSettings :=
  String → Nat → SaveReasonFlags → VoidPtr → Bool

/-- The pointee of `ConfigLoadSettings`. -/
abbrev ConfigLoadSettings := String → VoidPtr → Nat

/-- The pointee of `ConfigSaveNodeSettings`. -/
abbrev ConfigSaveNodeSettings (W : Nat) :=
  NodeId W → String → Nat → SaveReasonFlags → VoidPtr → Bool

/-- The pointee of `ConfigLoadNodeSettings`. -/
abbrev ConfigLoadNodeSettings (W : Nat) := NodeId W → String → VoidPtr → Nat

/-- The pointee of `ConfigSession`. -/
abbrev ConfigSession := VoidPtr → Unit

/-- The struct `Config`.  Every member is a pointer; `none` is `nullptr`. -/
structure Config (W : Nat) where
  SettingsFile : Option String
  BeginSaveSession : Option ConfigSession
  EndSaveSession : Option ConfigSession
  SaveSettings : Option ConfigSaveSettings
  LoadSettings : Option ConfigLoadSettings
  SaveNodeSettings : Option (ConfigSaveNodeSettings W)
  LoadNodeSettings : Option (ConfigLoadNodeSettings W)
  UserPointer : VoidPtr

/-- The constructor `Config::Config()` with its member initialisers (lines
68-78). -/
def Config.ctor (W : Nat) : Config W where
  SettingsFile := some "NodeEditor.json"
  BeginSaveSession := none
  EndSaveSession := none
  SaveSettings := none
  LoadSettings := none
  SaveNodeSettings := none
  LoadNodeSettings := none
  UserPointer := none

/-! ## Style (header lines 88-210) -/

/-- The unscoped enumeration `StyleColor`; the enumerators have no explicit
values. -/
inductive StyleColor where
  | StyleColor_Bg
  | StyleColor_Grid
  | StyleColor_NodeBg
  | StyleColor_NodeBorder
  | StyleColor_HovNodeBorder
  | StyleColor_SelNodeBorder
  | StyleColor_NodeSelRect
  | StyleColor_NodeSelRectBorder
  | StyleColor_HovLinkBorder
  | StyleColor_SelLinkBorder
  | StyleColor_LinkSelRect
  | StyleColor_LinkSelRectBorder
  | StyleColor_PinRect
  | StyleColor_PinRectBorder
  | StyleColor_Flow
  | StyleColor_FlowMarker
  | StyleColor_GroupBg
  | StyleColor_GroupBorder
  | StyleColor_Count
deriving DecidableEq, Fintype

/-- The value of an enumerator: the first is 0 and each one is its predecessor
plus one, which is its index in the declaration. -/
def StyleColor.val (c : StyleColor) : Nat := c.toCtorIdx

/-- The unscoped enumeration `StyleVar`; the enumerators have no explicit
values. -/
inductive StyleVar where
  | StyleVar_NodePadding
  | StyleVar_NodeRounding
  | StyleVar_NodeBorderWidth
  | StyleVar_HoveredNodeBorderWidth
  | StyleVar_SelectedNodeBorderWidth
  | StyleVar_PinRounding
  | StyleVar_PinBorderWidth
  | StyleVar_LinkStrength
  | StyleVar_SourceDirection
  | StyleVar_TargetDirection
  | StyleVar_ScrollDuration
  | StyleVar_FlowMarkerDistance
  | StyleVar_FlowSpeed
  | StyleVar_FlowDuration
  | StyleVar_PivotAlignment
  | StyleVar_PivotSize
  | StyleVar_PivotScale
  | StyleVar_PinCorners
  | StyleVar_PinRadius
  | StyleVar_PinArrowSize
  | StyleVar_PinArrowWidth
  | StyleVar_GroupRounding
  | StyleVar_GroupBorderWidth
  | StyleVar_Count
deriving DecidableEq, Fintype

/-- The value of an enumerator: its index in the declaration. -/
def StyleVar.val (v : StyleVar) : Nat := v.toCtorIdx

/-- The vector `ImVec2` of the host library; a component holds the number the
source writes for it. -/
structure ImVec2 where
  x : ℚ
  y : ℚ
deriving DecidableEq

/-- The vector `ImVec4` of the host library. -/
structure ImVec4 where
  x : ℚ
  y : ℚ
  z : ℚ
  w : ℚ
deriving DecidableEq

/-- The struct `Style`.  A member is `none` until something is assigned to it,
so that the work of the constructor body can be read off the result. -/
structure Style where
  NodePadding : Option ImVec4
  NodeRounding : Option ℚ
  NodeBorderWidth : Option ℚ
  HoveredNodeBorderWidth : Option ℚ
  SelectedNodeBorderWidth : Option ℚ
  PinRounding : Option ℚ
  PinBorderWidth : Option ℚ
  LinkStrength : Option ℚ
  SourceDirection : Option ImVec2
  TargetDirection : Option ImVec2
  ScrollDuration : Option ℚ
  FlowMarkerDistance : Option ℚ
  FlowSpeed : Option ℚ
  FlowDuration : Option ℚ
  PivotAlignment : Option ImVec2
  PivotSize : Option ImVec2
  PivotScale : Option ImVec2
  PinCorners : Option ℚ
  PinRadius : Option ℚ
  PinArrowSize : Option ℚ
  PinArrowWidth : Option ℚ
  GroupRounding : Option ℚ
  GroupBorderWidth : Option ℚ
  Colors : List (Option ImVec4)

namespace Style

open StyleColor StyleVar

/-- A `Style` object before the constructor body runs: nothing assigned, and
`Colors` an array of `StyleColor_Count` elements. -/
def unassigned : Style where
  NodePadding := none
  NodeRounding := none
  NodeBorderWidth := none
  HoveredNodeBorderWidth := none
  SelectedNodeBorderWidth := none
  PinRounding := none
  PinBorderWidth := none
  LinkStrength := none
  SourceDirection := none
  TargetDirection := none
  ScrollDuration := none
  FlowMarkerDistance := none
  FlowSpeed := none
  FlowDuration := none
  PivotAlignment := none
  PivotSize := none
  PivotScale := none
  PinCorners := none
  PinRadius := none
  PinArrowSize := none
  PinArrowWidth := none
  GroupRounding := none
  GroupBorderWidth := none
  Colors := List.replicate StyleColor_Count.val none

/-- The assignment `Colors[colorIndex] = color`. -/
def setColor (s : Style) (colorIndex : StyleColor) (color : ImVec4) : Style :=
  { s with Colors := s.Colors.set colorIndex.val (some color) }

/-- The first part of the body of `Style::Style()` (lines 167-189): one
assignment to each of 23 different members, none of which reads another.
`ImDrawFlags_RoundCornersAll` is a constant of the host library.  A `float`
member holds the number as the source writes it, before the rounding to
binary32 (which changes `0.35f` only); the values are not read below, only
whether a member has been assigned. -/
def assignVariables (ImDrawFlags_RoundCornersAll : Int) (s : Style) : Style :=
  { s with
    NodePadding := some ⟨8, 8, 8, 8⟩
    NodeRounding := some 12.0
    NodeBorderWidth := some 1.5
    HoveredNodeBorderWidth := some 3.5
    SelectedNodeBorderWidth := some 3.5
    PinRounding := some 4.0
    PinBorderWidth := some 0.0
    LinkStrength := some 100.0
    SourceDirection := some ⟨1.0, 0.0⟩
    TargetDirection := some ⟨-1.0, 0.0⟩
    ScrollDuration := some 0.35
    FlowMarkerDistance := some 30.0
    FlowSpeed := some 150.0
    FlowDuration := some 2.0
    PivotAlignment := some ⟨0.5, 0.5⟩
    PivotSize := some ⟨0.0, 0.0⟩
    PivotScale := some ⟨1, 1⟩
    PinCorners := some (ImDrawFlags_RoundCornersAll : ℚ)
    PinRadius := some 0.0
    PinArrowSize := some 0.0
    PinArrowWidth := some 0.0
    GroupRounding := some 6.0
    GroupBorderWidth := some 1.0 }

/-- The second part of the body of `Style::Style()` (lines 191-208): the
assignments to the elements of `Colors`, in order. -/
def assignColors (s : Style) : Style :=
  s
    |>.setColor StyleColor_Bg ⟨60, 60, 70, 200⟩
    |>.setColor StyleColor_Grid ⟨120, 120, 120, 40⟩
    |>.setColor StyleColor_NodeBg ⟨32, 32, 32, 200⟩
    |>.setColor StyleColor_NodeBorder ⟨255, 255, 255, 96⟩
    |>.setColor StyleColor_HovNodeBorder ⟨50, 176, 255, 255⟩
    |>.setColor StyleColor_SelNodeBorder ⟨255, 176, 50, 255⟩
    |>.setColor StyleColor_NodeSelRect ⟨5, 130, 255, 64⟩
    |>.setColor StyleColor_NodeSelRectBorder ⟨5, 130, 255, 128⟩
    |>.setColor StyleColor_HovLinkBorder ⟨50, 176, 255, 255⟩
    |>.setColor StyleColor_SelLinkBorder ⟨255, 176, 50, 255⟩
    |>.setColor StyleColor_LinkSelRect ⟨5, 130, 255, 64⟩
    |>.setColor StyleColor_LinkSelRectBorder ⟨5, 130, 255, 128⟩
    |>.setColor StyleColor_PinRect ⟨60, 180, 255, 100⟩
    |>.setColor StyleColor_PinRectBorder ⟨60, 180, 255, 128⟩
    |>.setColor StyleColor_Flow ⟨255, 128, 64, 255⟩
    |>.setColor StyleColor_FlowMarker ⟨255, 128, 64, 255⟩
    |>.setColor StyleColor_GroupBg ⟨0, 0, 0, 160⟩
    |>.setColor StyleColor_GroupBorder ⟨255, 255, 255, 32⟩

/-- The constructor `Style::Style()` (lines 165-209): the body run on an
object to which nothing has been assigned yet. -/
def ctor (ImDrawFlags_RoundCornersAll : Int) : Style :=
  assignColors (assignVariables ImDrawFlags_RoundCornersAll unassigned)

/-- Whether something has been assigned to each of the variable members, the
members taken in the order of their declaration (lines 140-162). -/
def variableMembers (s : Style) : List Bool :=
  [ s.NodePadding.isSome, s.NodeRounding.isSome, s.NodeBorderWidth.isSome,
    s.HoveredNodeBorderWidth.isSome, s.SelectedNodeBorderWidth.isSome,
    s.PinRounding.isSome, s.PinBorderWidth.isSome, s.LinkStrength.isSome,
    s.SourceDirection.isSome, s.TargetDirection.isSome,
    s.ScrollDuration.isSome, s.FlowMarkerDistance.isSome, s.FlowSpeed.isSome,
    s.FlowDuration.isSome, s.PivotAlignment.isSome, s.PivotSize.isSome,
    s.PivotScale.isSome, s.PinCorners.isSome, s.PinRadius.isSome,
    s.PinArrowSize.isSome, s.PinArrowWidth.isSome, s.GroupRounding.isSome,
    s.GroupBorderWidth.isSome ]

/-- Whether something has been assigned to the member that carries the name
of the enumerator; `StyleVar_Count` names no member. -/
def assigned (s : Style) : StyleVar → Bool
  | StyleVar_NodePadding => s.NodePadding.isSome
  | StyleVar_NodeRounding => s.NodeRounding.isSome
  | StyleVar_NodeBorderWidth => s.NodeBorderWidth.isSome
  | StyleVar_HoveredNodeBorderWidth => s.HoveredNodeBorderWidth.isSome
  | StyleVar_SelectedNodeBorderWidth => s.SelectedNodeBorderWidth.isSome
  | StyleVar_PinRounding => s.PinRounding.isSome
  | StyleVar_PinBorderWidth => s.PinBorderWidth.isSome
  | StyleVar_LinkStrength => s.LinkStrength.isSome
  | StyleVar_SourceDirection => s.SourceDirection.isSome
  | StyleVar_TargetDirection => s.TargetDirection.isSome
  | StyleVar_ScrollDuration => s.ScrollDuration.isSome
  | StyleVar_FlowMarkerDistance => s.FlowMarkerDistance.isSome
  | StyleVar_FlowSpeed => s.FlowSpeed.isSome
  | StyleVar_FlowDuration => s.FlowDuration.isSome
  | StyleVar_PivotAlignment => s.PivotAlignment.isSome
  | StyleVar_PivotSize => s.PivotSize.isSome
  | StyleVar_PivotScale => s.PivotScale.isSome
  | StyleVar_PinCorners => s.PinCorners.isSome
  | StyleVar_PinRadius => s.PinRadius.isSome
  | StyleVar_PinArrowSize => s.PinArrowSize.isSome
  | StyleVar_PinArrowWidth => s.PinArrowWidth.isSome
  | StyleVar_GroupRounding => s.GroupRounding.isSome
  | StyleVar_GroupBorderWidth => s.GroupBorderWidth.isSome
  | StyleVar_Count => false

end Style

/-! ## Selection (declarations at header lines 299-303) -/

/-- Modelled from the spec: an element of the selection, the id of a node or of
a link.  The header declares `SelectNode`, `SelectLink`, `DeselectNode`,
`DeselectLink` and `ClearSelection` and nothing of the state they act on; the
spec calls that state an id set. -/
inductive SelectedId (W : Nat) where
  | node (id : NodeId W)
  | link (id : LinkId W)
deriving DecidableEq

/-- Modelled from the spec: the selection, "an id set".  The bodies of the
functions declared at lines 299-303 are in a source file that is not at hand. -/
abbrev Selection (W : Nat) := Finset (SelectedId W)

/-- Modelled from the spec: `ClearSelection()`, whose body is missing, empties
the set. -/
def ClearSelection {W : Nat} (_sel : Selection W) : Selection W := ∅

/-- Modelled from the spec: `SelectNode(nodeId, append)`, whose body is
missing: "append=false replaces the set with the single id, append=true unions
it in".  The default `append = false` is the one declared at line 300. -/
def SelectNode {W : Nat} (sel : Selection W) (nodeId : NodeId W) (append : Bool := false) :
    Selection W :=
  if append then sel ∪ {SelectedId.node nodeId} else {SelectedId.node nodeId}

/-- Modelled from the spec: `SelectLink(linkId, append)`, whose body is
missing; as `SelectNode`, default `append = false` from line 301. -/
def SelectLink {W : Nat} (sel : Selection W) (linkId : LinkId W) (append : Bool := false) :
    Selection W :=
  if append then sel ∪ {SelectedId.link linkId} else {SelectedId.link linkId}

/-- Modelled from the spec: `DeselectNode(nodeId)`, whose body is missing:
"remove from the set". -/
def DeselectNode {W : Nat} (sel : Selection W) (nodeId : NodeId W) : Selection W :=
  sel.erase (SelectedId.node nodeId)

/-- Modelled from the spec: `DeselectLink(linkId)`, whose body is missing:
"remove from the set". -/
def DeselectLink {W : Nat} (sel : Selection W) (linkId : LinkId W) : Selection W :=
  sel.erase (SelectedId.link linkId)

/-! ## Theorems: handles -/

namespace Details

open SafePointerType

variable {Tag : Type}

theorem uintptr_t.ext_val {W : Nat} {a b : uintptr_t W} (h : a.val = b.val) : a = b := by
  cases a; cases b; cases h; rfl

theorem uintptr_t.ofNat_val (W v : Nat) : (uintptr_t.ofNat W v).val = v % 2 ^ W := rfl

theorem uintptr_t.ofNat_val_of_lt {W v : Nat} (h : v < 2 ^ W) :
    (uintptr_t.ofNat W v).val = v := by
  rw [uintptr_t.ofNat_val, Nat.mod_eq_of_lt h]

theorem SafeType.ext_Get {T : Type} {a b : SafeType T Tag} (h : a.Get = b.Get) : a = b := by
  cases a; cases b; cases h; rfl

theorem SafePointerType.Invalid_Get_val (W : Nat) :
    (Invalid : SafePointerType W Tag).Get.val = 0 := by
  show 0 % 2 ^ W = 0
  exact Nat.zero_mod _

theorem SafePointerType.operator_eq_iff {W : Nat} (a b : SafePointerType W Tag) :
    operator_eq a b = true ↔ a.Get = b.Get := by
  unfold operator_eq
  rw [decide_eq_true_iff]
  exact ⟨uintptr_t.ext_val, fun h => by rw [h]⟩

theorem SafePointerType.operator_ne_eq_not {W : Nat} (a b : SafePointerType W Tag) :
    operator_ne a b = !operator_eq a b := by
  unfold operator_ne operator_eq
  by_cases h : a.Get.val = b.Get.val <;> simp [h]

theorem SafePointerType.toBool_iff {W : Nat} (h : SafePointerType W Tag) :
    h.toBool = true ↔ h.Get.val ≠ 0 := by
  unfold toBool operator_ne
  rw [decide_eq_true_iff, Invalid_Get_val]

/-- C1: for every handle kind (the tag is `NodeIdTag`, `LinkIdTag`, `PinIdTag`
or any other), `Invalid` wraps the value 0, the boolean conversion of a handle
is true exactly when its `Get()` is not 0, and so a handle is invalid (converts
to false) exactly when it is the handle `Invalid`, on every width of
`uintptr_t`. -/
theorem C1_zero_is_the_only_invalid_value (W : Nat) (Tag : Type) :
    (Invalid : SafePointerType W Tag).Get.val = 0 ∧
    (∀ h : SafePointerType W Tag, h.toBool = true ↔ h.Get.val ≠ 0) ∧
    (∀ h : SafePointerType W Tag, h.toBool = false ↔ h = Invalid) := by
  refine ⟨Invalid_Get_val W, toBool_iff, fun h => ?_⟩
  rw [← Bool.not_eq_true, toBool_iff, not_not]
  constructor
  · intro h0
    apply SafeType.ext_Get
    apply uintptr_t.ext_val
    rw [h0, Invalid_Get_val]
  · intro he
    rw [he, Invalid_Get_val]

/-- C2: for two handles of one kind, `a == b` holds exactly when
`a.Get()` equals `b.Get()`, and `a != b` exactly when `a == b` does not; `==`
is reflexive, symmetric and transitive, and two handles built from the same
value (by the constructor, or from the same host integer) are equal. -/
theorem C2_equality_of_handles (W : Nat) (Tag : Type) :
    (∀ a b : SafePointerType W Tag, operator_eq a b = true ↔ a.Get = b.Get) ∧
    (∀ a b : SafePointerType W Tag, operator_ne a b = true ↔ ¬ operator_eq a b = true) ∧
    (∀ a : SafePointerType W Tag, operator_eq a a = true) ∧
    (∀ a b : SafePointerType W Tag, operator_eq a b = operator_eq b a) ∧
    (∀ a b c : SafePointerType W Tag,
      operator_eq a b = true → operator_eq b c = true → operator_eq a c = true) ∧
    (∀ t : uintptr_t W,
      operator_eq (SafeType.ctor t : SafePointerType W Tag) (SafeType.ctor t) = true) ∧
    (∀ v : Nat, operator_eq (ofValue W Tag v) (ofValue W Tag v) = true) := by
  refine ⟨operator_eq_iff, fun a b => ?_, fun a => ?_, fun a b => ?_, fun a b c hab hbc => ?_,
    fun t => ?_, fun v => ?_⟩
  · rw [operator_ne_eq_not]
    cases operator_eq a b <;> simp
  · exact (operator_eq_iff a a).2 rfl
  · rw [Bool.eq_iff_iff, operator_eq_iff, operator_eq_iff]
    exact eq_comm
  · rw [operator_eq_iff] at hab hbc ⊢
    exact hab.trans hbc
  · exact (operator_eq_iff _ _).2 rfl
  · exact (operator_eq_iff _ _).2 rfl

/-- An instance of C2 on a 64-bit target: a `NodeId` built from 7 is `==` to a
copy of a second one built from 7 (by transitivity through that second one),
and it is `!=` to the one built from 8. -/
theorem C2_equality_of_handles_witness :
    operator_eq (ofValue 64 NodeIdTag 7) (SafeType.copy (ofValue 64 NodeIdTag 7)) = true ∧
    operator_ne (ofValue 64 NodeIdTag 7) (ofValue 64 NodeIdTag 8) = true :=
  ⟨(C2_equality_of_handles 64 NodeIdTag).2.2.2.2.1 _ (ofValue 64 NodeIdTag 7) _
      (by decide) (by decide),
   ((C2_equality_of_handles 64 NodeIdTag).2.1 _ _).2 (by decide)⟩

/-- C4: a default-constructed handle of any kind is the invalid one: it is
`==` to `Invalid` (and not `!=`), its `Get()` is 0 and its boolean conversion
is false. -/
theorem C4_default_handle_is_invalid (W : Nat) (Tag : Type) :
    operator_eq (SafePointerType.default : SafePointerType W Tag) Invalid = true ∧
    operator_ne (SafePointerType.default : SafePointerType W Tag) Invalid = false ∧
    (SafePointerType.default : SafePointerType W Tag) = Invalid ∧
    (SafePointerType.default : SafePointerType W Tag).Get.val = 0 ∧
    (SafePointerType.default : SafePointerType W Tag).toBool = false := by
  have hd : (SafePointerType.default : SafePointerType W Tag) = Invalid := rfl
  have he : operator_eq (Invalid : SafePointerType W Tag) Invalid = true :=
    (operator_eq_iff _ _).2 rfl
  refine ⟨by rw [hd]; exact he, by rw [hd, operator_ne_eq_not, he]; rfl, hd,
    by rw [hd]; exact Invalid_Get_val W, ?_⟩
  rw [hd]
  unfold SafePointerType.toBool
  rw [operator_ne_eq_not, he]
  rfl

end Details

/-! ## Theorems: the save-reason bitmask -/

namespace SaveReasonFlags

theorem ext_bits {a b : SaveReasonFlags} (h : a.bits = b.bits) : a = b := by
  cases a; cases b; cases h; rfl

theorem operator_or_bits (a b : SaveReasonFlags) :
    (operator_or a b).bits = a.bits ||| b.bits :=
  Nat.mod_eq_of_lt (Nat.or_lt_two_pow a.lt b.lt)

theorem operator_and_bits (a b : SaveReasonFlags) :
    (operator_and a b).bits = a.bits &&& b.bits :=
  Nat.mod_eq_of_lt (Nat.and_lt_two_pow a.bits b.lt)

theorem absorb_bits (x y : Nat) : (x ||| y) &&& x = x := by
  apply Nat.eq_of_testBit_eq
  intro i
  rw [Nat.testBit_and, Nat.testBit_or]
  cases x.testBit i <;> cases y.testBit i <;> rfl

theorem mem_namedReasons {r : SaveReasonFlags} (h : r ∈ namedReasons) :
    r = Navigation ∨ r = Position ∨ r = Size ∨ r = Selection ∨ r = User := by
  simpa [namedReasons] using h

theorem namedReasons_bits_ne_zero {r : SaveReasonFlags} (h : r ∈ namedReasons) :
    r.bits ≠ 0 := by
  rcases mem_namedReasons h with rfl | rfl | rfl | rfl | rfl <;> decide

theorem namedReasons_and_bits {x f : SaveReasonFlags} (hx : x ∈ namedReasons)
    (hf : f ∈ namedReasons) : x.bits &&& f.bits = if x = f then f.bits else 0 := by
  rcases mem_namedReasons hx with rfl | rfl | rfl | rfl | rfl <;>
    rcases mem_namedReasons hf with rfl | rfl | rfl | rfl | rfl <;> decide

theorem foldl_and_bits (S : List SaveReasonFlags) (f : SaveReasonFlags)
    (hS : ∀ r ∈ S, r ∈ namedReasons) (hf : f ∈ namedReasons) (acc : SaveReasonFlags) :
    (S.foldl operator_or acc).bits &&& f.bits
      = (acc.bits &&& f.bits) ||| (if f ∈ S then f.bits else 0) := by
  induction S generalizing acc with
  | nil => simp
  | cons x S ih =>
    have hx : x ∈ namedReasons := hS x (List.mem_cons_self x S)
    have hS2 : ∀ r ∈ S, r ∈ namedReasons := fun r hr => hS r (List.mem_cons_of_mem x hr)
    rw [List.foldl_cons, ih hS2, operator_or_bits, Nat.land_comm (acc.bits ||| x.bits),
      Nat.and_or_distrib_left, Nat.land_comm f.bits, Nat.land_comm f.bits,
      namedReasons_and_bits hx hf, Nat.lor_assoc]
    congr 1
    by_cases hxf : x = f
    · subst hxf
      by_cases hm : x ∈ S <;> simp [hm]
    · have hfx : ¬ f = x := fun h => hxf h.symm
      by_cases hm : f ∈ S <;> simp [hm, hxf, hfx]

theorem combine_and_bits (S : List SaveReasonFlags) (f : SaveReasonFlags)
    (hS : ∀ r ∈ S, r ∈ namedReasons) (hf : f ∈ namedReasons) :
    (operator_and (combine S) f).bits = if f ∈ S then f.bits else 0 := by
  rw [operator_and_bits]
  unfold combine
  rw [foldl_and_bits S f hS hf None]
  show (0 &&& f.bits) ||| _ = _
  rw [Nat.zero_and, Nat.zero_or]

/-- C5: the five named reasons are pairwise distinct, none is `None`, and each
has exactly one bit set; so for a mask `combine S` made with `operator|` from
named reasons and for a named reason `f`, `combine S & f` differs from `None`
exactly when `f` is one of the reasons in `S`, and then it equals `f`. -/
theorem C5_mask_filters_by_reason (S : List SaveReasonFlags) (f : SaveReasonFlags)
    (hS : ∀ r ∈ S, r ∈ namedReasons) (hf : f ∈ namedReasons) :
    namedReasons.Nodup ∧
    (∀ r ∈ namedReasons, r ≠ None ∧ ∃ k, k < 32 ∧ r.bits = 2 ^ k) ∧
    (operator_and (combine S) f ≠ None ↔ f ∈ S) ∧
    (f ∈ S → operator_and (combine S) f = f) := by
  have hb := combine_and_bits S f hS hf
  refine ⟨by decide, ?_, ?_, ?_⟩
  · intro r hr
    refine ⟨fun h => namedReasons_bits_ne_zero hr (by rw [h]; rfl), ?_⟩
    rcases mem_namedReasons hr with rfl | rfl | rfl | rfl | rfl
    · exact ⟨0, by decide, rfl⟩
    · exact ⟨1, by decide, rfl⟩
    · exact ⟨2, by decide, rfl⟩
    · exact ⟨3, by decide, rfl⟩
    · exact ⟨4, by decide, rfl⟩
  · constructor
    · intro hne
      by_contra hm
      rw [if_neg hm] at hb
      exact hne (ext_bits hb)
    · intro hm hnone
      rw [if_pos hm, hnone] at hb
      exact namedReasons_bits_ne_zero hf hb.symm
  · intro hm
    rw [if_pos hm] at hb
    exact ext_bits hb

/-- An instance of C5: in the mask `Position | User | Position` the reason
`User` is found and the reason `Size` is not. -/
theorem C5_mask_filters_by_reason_witness :
    operator_and (combine [Position, User, Position]) User = User ∧
    ¬ operator_and (combine [Position, User, Position]) Size ≠ None :=
  ⟨(C5_mask_filters_by_reason [Position, User, Position] User (by decide) (by decide)).2.2.2
      (by decide),
   fun h => absurd
     ((C5_mask_filters_by_reason [Position, User, Position] Size (by decide) (by decide)).2.2.1.1
       h) (by decide)⟩

/-- C10: `operator|` and `operator&` are the bitwise OR and AND of the 32-bit
underlying values (value by value and bit by bit), for all values of the
enumeration, named or not; both are commutative, associative and idempotent,
`None` is the identity of `|` and the annihilator of `&`, and
`(a | b) & a == a`. -/
theorem C10_flag_operators_are_bitwise (a b c : SaveReasonFlags) :
    ((operator_or a b).bits = a.bits ||| b.bits ∧
      (operator_and a b).bits = a.bits &&& b.bits) ∧
    (∀ i : Nat,
      (operator_or a b).bits.testBit i = (a.bits.testBit i || b.bits.testBit i) ∧
      (operator_and a b).bits.testBit i = (a.bits.testBit i && b.bits.testBit i)) ∧
    (operator_or a b = operator_or b a ∧ operator_and a b = operator_and b a) ∧
    (operator_or (operator_or a b) c = operator_or a (operator_or b c) ∧
      operator_and (operator_and a b) c = operator_and a (operator_and b c)) ∧
    (operator_or a a = a ∧ operator_and a a = a) ∧
    (operator_or a None = a ∧ operator_or None a = a) ∧
    (operator_and a None = None ∧ operator_and None a = None) ∧
    operator_and (operator_or a b) a = a := by
  refine ⟨⟨operator_or_bits a b, operator_and_bits a b⟩, fun i => ⟨?_, ?_⟩, ⟨?_, ?_⟩, ⟨?_, ?_⟩,
    ⟨?_, ?_⟩, ⟨?_, ?_⟩, ⟨?_, ?_⟩, ?_⟩
  · rw [operator_or_bits, Nat.testBit_or]
  · rw [operator_and_bits, Nat.testBit_and]
  · exact ext_bits (by rw [operator_or_bits, operator_or_bits, Nat.lor_comm])
  · exact ext_bits (by rw [operator_and_bits, operator_and_bits, Nat.land_comm])
  · exact ext_bits (by
      rw [operator_or_bits, operator_or_bits, operator_or_bits, operator_or_bits,
        Nat.lor_assoc])
  · exact ext_bits (by
      rw [operator_and_bits, operator_and_bits, operator_and_bits, operator_and_bits,
        Nat.land_assoc])
  · exact ext_bits (by rw [operator_or_bits, Nat.or_self])
  · exact ext_bits (by rw [operator_and_bits, Nat.and_self])
  · exact ext_bits (by rw [operator_or_bits]; exact Nat.or_zero a.bits)
  · exact ext_bits (by rw [operator_or_bits]; exact Nat.zero_or a.bits)
  · exact ext_bits (by rw [operator_and_bits]; exact Nat.and_zero a.bits)
  · exact ext_bits (by rw [operator_and_bits]; exact Nat.zero_and a.bits)
  · exact ext_bits (by rw [operator_and_bits, operator_or_bits, absorb_bits])

end SaveReasonFlags

/-! ## Theorems: the default `Config` -/

/-- C6: a default-constructed `Config` names the settings file
"NodeEditor.json" (so `SettingsFile` is not null) and installs no callback:
`BeginSaveSession`, `EndSaveSession`, `SaveSettings`, `LoadSettings`,
`SaveNodeSettings`, `LoadNodeSettings` and `UserPointer` are all null. -/
theorem C6_default_config (W : Nat) :
    (Config.ctor W).SettingsFile = some "NodeEditor.json" ∧
    (Config.ctor W).SettingsFile ≠ none ∧
    (Config.ctor W).BeginSaveSession = none ∧
    (Config.ctor W).EndSaveSession = none ∧
    (Config.ctor W).SaveSettings = none ∧
    (Config.ctor W).LoadSettings = none ∧
    (Config.ctor W).SaveNodeSettings = none ∧
    (Config.ctor W).LoadNodeSettings = none ∧
    (Config.ctor W).UserPointer = none :=
  ⟨rfl, fun h => Option.noConfusion h, rfl, rfl, rfl, rfl, rfl, rfl, rfl⟩

/-! ## Theorems: the default `Style` -/

namespace Style

open StyleColor StyleVar

theorem variableMembers_get (s : Style) (v : StyleVar) (hv : v ≠ StyleVar_Count) :
    s.variableMembers[v.val]? = some (s.assigned v) := by
  cases v <;> first | rfl | exact absurd rfl hv

theorem ctor_assigned (k : Int) (v : StyleVar) (hv : v ≠ StyleVar_Count) :
    (ctor k).assigned v = true := by
  cases v <;> first | rfl | exact absurd rfl hv

theorem ctor_Colors (k : Int) : (ctor k).Colors = (assignColors unassigned).Colors := by
  simp [ctor, assignColors, setColor, assignVariables]

theorem ctor_Colors_get (k : Int) (i : Nat) (hi : i < StyleColor_Count.val) :
    ∃ color, (ctor k).Colors[i]? = some (some color) := by
  have h18 : StyleColor_Count.val = 18 := rfl
  rw [h18] at hi
  rw [ctor_Colors]
  interval_cases i <;> exact ⟨_, rfl⟩

theorem ctor_Colors_length (k : Int) : (ctor k).Colors.length = 18 := by
  rw [ctor_Colors]
  rfl

/-- C9: the default-constructed `Style` leaves no slot without a value.
`StyleColor_Count` is 18, the number of the other colour enumerators, and the
constructor assigns a colour to `Colors[i]` for every `i` below it (`Colors`
has exactly that many elements); `StyleVar_Count` is 23, the number of the
other variable enumerators, the struct has 23 variable members, the member at
place `v` of the declaration is the one named after the enumerator of value
`v`, and the constructor assigns a value to each of them.  This holds whatever
the value of the host constant `ImDrawFlags_RoundCornersAll`. -/
theorem C9_default_style_fills_every_slot (ImDrawFlags_RoundCornersAll : Int) :
    (StyleColor_Count.val = 18 ∧
      (Finset.univ.filter (fun c : StyleColor => c ≠ StyleColor_Count)).card = 18 ∧
      (ctor ImDrawFlags_RoundCornersAll).Colors.length = 18 ∧
      (∀ i : Nat, i < StyleColor_Count.val →
        ∃ color, (ctor ImDrawFlags_RoundCornersAll).Colors[i]? = some (some color)) ∧
      (∀ c : StyleColor, c ≠ StyleColor_Count → c.val < StyleColor_Count.val)) ∧
    (StyleVar_Count.val = 23 ∧
      (Finset.univ.filter (fun v : StyleVar => v ≠ StyleVar_Count)).card = 23 ∧
      (ctor ImDrawFlags_RoundCornersAll).variableMembers.length = 23 ∧
      (∀ (s : Style) (v : StyleVar), v ≠ StyleVar_Count →
        s.variableMembers[v.val]? = some (s.assigned v)) ∧
      (∀ v : StyleVar, v ≠ StyleVar_Count →
        (ctor ImDrawFlags_RoundCornersAll).assigned v = true) ∧
      (∀ b ∈ (ctor ImDrawFlags_RoundCornersAll).variableMembers, b = true)) := by
  refine ⟨⟨rfl, by decide, ctor_Colors_length _, ctor_Colors_get _, ?_⟩,
    ⟨rfl, by decide, rfl, variableMembers_get, ctor_assigned _, ?_⟩⟩
  · intro c hc
    cases c <;> first | (exact absurd rfl hc) | decide
  · intro b hb
    simp only [variableMembers, List.mem_cons, List.mem_singleton] at hb
    rcases hb with h | h | h | h | h | h | h | h | h | h | h | h | h | h | h | h | h | h |
      h | h | h | h | h | h <;> first | (rw [h]; rfl) | exact absurd h (List.not_mem_nil b)

/-- An instance of C9 with the host constant at 240: the last colour slot and
the last variable member are assigned. -/
theorem C9_default_style_fills_every_slot_witness :
    (∃ color, (ctor 240).Colors[17]? = some (some color)) ∧
    (ctor 240).assigned StyleVar_GroupBorderWidth = true :=
  ⟨(C9_default_style_fills_every_slot 240).1.2.2.2.1 17 (by decide),
   (C9_default_style_fills_every_slot 240).2.2.2.2.2.1 StyleVar_GroupBorderWidth (by decide)⟩

end Style

/-! ## Theorems: selection -/

/-- C8: on the selection modelled as an id set, for every prior selection
`sel` and node ids `A`, `B`: `SelectNode(B, false)`, which is also
`SelectNode(B)`, leaves exactly `{B}`; `SelectNode(B, true)` leaves `sel`
united with `{B}`; `DeselectNode(B)` leaves `sel` without `B`; `SelectNode(A)`
then `SelectNode(B)` gives `{B}`, and `SelectNode(A)` then
`SelectNode(B, true)` gives `{A, B}`. -/
theorem C8_select_node_replaces_or_unions (W : Nat) (sel : Selection W) (A B : NodeId W) :
    SelectNode sel B false = {SelectedId.node B} ∧
    SelectNode sel B = {SelectedId.node B} ∧
    SelectNode sel B true = sel ∪ {SelectedId.node B} ∧
    DeselectNode sel B = sel \ {SelectedId.node B} ∧
    (∀ x : SelectedId W, x ∈ DeselectNode sel B ↔ x ∈ sel ∧ x ≠ SelectedId.node B) ∧
    SelectNode (SelectNode sel A) B = {SelectedId.node B} ∧
    SelectNode (SelectNode sel A) B true = {SelectedId.node A, SelectedId.node B} := by
  refine ⟨rfl, rfl, rfl, ?_, ?_, rfl, ?_⟩
  · ext x
    simp [DeselectNode, and_comm]
  · intro x
    simp [DeselectNode, and_comm]
  · ext x
    simp [SelectNode]

end ax.NodeEditor
